import Mathlib

/-!
Verification of the Edit History Manager of the AI photo editor
(source: src/components/TemplatePanel.tsx, `App` component).

The state of the React component `App` is embedded as an explicit record
`AppState α`, polymorphic in the revision type `α` (in the source a revision
is a `File`; the history logic never inspects its contents).  Each event
handler of the component becomes a pure state-transition function; the
asynchronous collaborators (the generative transform service, the canvas
rasterizer, the image loader used for download) are passed in as explicit
result values (`Except String α` / `Bool` flags), since the component only
ever consumes their final outcome on the single event thread.
-/

namespace AIPhotoEditor

/-- A focus-point coordinate (`editHotspot` / `displayHotspot` in the source:
`{ x: number, y: number }`, produced by `Math.round`, hence integral). -/
structure Hotspot where
  x : Int
  y : Int
deriving DecidableEq

/-- Unit of a crop selection, from react-image-crop. -/
inductive CropUnit where
  | percent
  | px
deriving DecidableEq

/-- An in-progress crop selection (`Crop` of react-image-crop). -/
structure CropSel where
  unit : CropUnit
  x : Rat
  y : Rat
  width : Rat
  height : Rat
deriving DecidableEq

/-- A completed crop rectangle in displayed pixels (`PixelCrop`). -/
structure PixelCrop where
  x : Rat
  y : Rat
  width : Rat
  height : Rat
deriving DecidableEq

/-- The `Tab` union type of the source. -/
inductive Tab where
  | retouch
  | adjust
  | filters
  | crop
  | templates
deriving DecidableEq

/-- The `ExportQuality` union type of the source. -/
inductive ExportQuality where
  | low
  | medium
  | high
deriving DecidableEq

/-- The `qualityMap` of `handleDownload`: tier to JPEG quality parameter. -/
def qualityMap : ExportQuality → Rat
  | ExportQuality.low => 1 / 2
  | ExportQuality.medium => 3 / 4
  | ExportQuality.high => 23 / 25

/-- The mutable state of the `App` component: one field per `useState` hook
that the edit-history manager and its flows read or write. -/
structure AppState (α : Type) where
  history : List α
  historyIndex : Int
  prompt : String
  isLoading : Bool
  error : Option String
  editHotspot : Option Hotspot
  displayHotspot : Option Hotspot
  activeTab : Tab
  crop : Option CropSel
  completedCrop : Option PixelCrop
  aspect : Option Rat
  isComparing : Bool
  exportQuality : ExportQuality
deriving DecidableEq

/-- The initial state of the component: every `useState` initializer. -/
def initialState (α : Type) : AppState α where
  history := []
  historyIndex := -1
  prompt := ""
  isLoading := false
  error := none
  editHotspot := none
  displayHotspot := none
  activeTab := Tab.retouch
  crop := none
  completedCrop := none
  aspect := none
  isComparing := false
  exportQuality := ExportQuality.high

/-- `const currentImage = history[historyIndex] ?? null` (a negative index
reads as `undefined` in JS, hence `none`). -/
def currentImage {α : Type} (s : AppState α) : Option α :=
  if s.historyIndex < 0 then none else s.history.get? s.historyIndex.toNat

/-- `const originalImage = history[0] ?? null`. -/
def originalImage {α : Type} (s : AppState α) : Option α :=
  s.history.get? 0

/-- `const canUndo = historyIndex > 0`. -/
def canUndo {α : Type} (s : AppState α) : Bool :=
  s.historyIndex > 0

/-- `const canRedo = historyIndex < history.length - 1`. -/
def canRedo {α : Type} (s : AppState α) : Bool :=
  s.historyIndex < (s.history.length : Int) - 1

/-- `addImageToHistory`: truncate to `history.slice(0, historyIndex + 1)`,
push the new file, set the index to the new last position, and reset the
crop selection state.  (`slice` is modelled for a nonnegative end index,
which holds whenever `historyIndex >= -1`; the component never leaves that
range.) -/
def addImageToHistory {α : Type} (s : AppState α) (newImageFile : α) : AppState α :=
  let newHistory := s.history.take (s.historyIndex + 1).toNat ++ [newImageFile]
  { s with
    history := newHistory
    historyIndex := (newHistory.length : Int) - 1
    crop := none
    completedCrop := none }

/-- `handleImageUpload`: replace the history with the single uploaded file. -/
def handleImageUpload {α : Type} (s : AppState α) (file : α) : AppState α :=
  { s with
    error := none
    history := [file]
    historyIndex := 0
    editHotspot := none
    displayHotspot := none
    activeTab := Tab.retouch
    crop := none
    completedCrop := none }

/-- Whitespace predicate for JS `String.prototype.trim`. -/
def isWhitespaceChar (c : Char) : Bool :=
  c == ' ' || c == '\t' || c == '\n' || c == '\r' || c == '\x0c' || c == '\x0b'

/-- JS `s.trim()`: drop whitespace from both ends. -/
def strTrim (s : String) : String :=
  ⟨(((s.toList.dropWhile isWhitespaceChar).reverse.dropWhile isWhitespaceChar).reverse)⟩

/-- The fixed user message shown when the failure is classified as a
quota / rate-limit failure. -/
def quotaMessage : String :=
  "It looks like the AI is a bit busy right now (quota exceeded). Please wait a few moments and try your edit again."

/-- Does `pat` occur at the head of `s`?  (Helper for JS `String.includes`.) -/
def listHasPre (pat : List Char) : List Char → Bool
  | s =>
    match pat, s with
    | [], _ => true
    | _ :: _, [] => false
    | p :: ps, c :: cs => p == c && listHasPre ps cs

/-- Does `pat` occur anywhere in `s`?  (Helper for JS `String.includes`.) -/
def listHasSub (pat : List Char) : List Char → Bool
  | [] => listHasPre pat []
  | c :: cs => listHasPre pat (c :: cs) || listHasSub pat cs

/-- JS `s.includes(pat)`: substring containment. -/
def strIncludes (s pat : String) : Bool :=
  listHasSub pat.toList s.toList

/-- The message computed by `handleApiError`: the generic
`Failed to <context>. <raw>` text, overridden by the quota message when the
raw message contains a `429`, `RESOURCE_EXHAUSTED` or `quota` marker. -/
def displayErrorMessage (rawErrorMessage context : String) : String :=
  if strIncludes rawErrorMessage "429"
      || strIncludes rawErrorMessage "RESOURCE_EXHAUSTED"
      || strIncludes rawErrorMessage "quota" then
    quotaMessage
  else
    "Failed to " ++ context ++ ". " ++ rawErrorMessage

/-- `handleApiError`: store the display message in the single error slot. -/
def handleApiError {α : Type} (s : AppState α) (rawErrorMessage context : String) :
    AppState α :=
  { s with error := some (displayErrorMessage rawErrorMessage context) }

/-- `handleGenerate` (retouch flow), with the combined outcome of
`generateEditedImage` plus `dataURLtoFile` passed in as `svc`.  The three
guards run first; on success the new revision is committed and the hotspot
cleared; on failure `handleApiError` runs; `finally` clears the busy flag. -/
def handleGenerate {α : Type} (s : AppState α) (svc : Except String α) : AppState α :=
  match currentImage s with
  | none => { s with error := some "No image loaded to edit." }
  | some _ =>
    if strTrim s.prompt = "" then
      { s with error := some "Please enter a description for your edit." }
    else
      match s.editHotspot with
      | none => { s with error := some "Please click on the image to select an area to edit." }
      | some _ =>
        let busy := { s with isLoading := true, error := none }
        match svc with
        | Except.ok newImageFile =>
          let s1 := addImageToHistory busy newImageFile
          { s1 with editHotspot := none, displayHotspot := none, isLoading := false }
        | Except.error msg =>
          { handleApiError busy msg "generate the image" with isLoading := false }

/-- `handleApplyFilter` (filter flow). -/
def handleApplyFilter {α : Type} (s : AppState α) (svc : Except String α) : AppState α :=
  match currentImage s with
  | none => { s with error := some "No image loaded to apply a filter to." }
  | some _ =>
    let busy := { s with isLoading := true, error := none }
    match svc with
    | Except.ok newImageFile =>
      { addImageToHistory busy newImageFile with isLoading := false }
    | Except.error msg =>
      { handleApiError busy msg "apply the filter" with isLoading := false }

/-- `handleApplyAdjustment` (adjustment flow, also used by the template
panel). -/
def handleApplyAdjustment {α : Type} (s : AppState α) (svc : Except String α) : AppState α :=
  match currentImage s with
  | none => { s with error := some "No image loaded to apply an adjustment to." }
  | some _ =>
    let busy := { s with isLoading := true, error := none }
    match svc with
    | Except.ok newImageFile =>
      { addImageToHistory busy newImageFile with isLoading := false }
    | Except.error msg =>
      { handleApiError busy msg "apply the adjustment" with isLoading := false }

/-- `handleApplyCrop` (crop flow).  `imgRefPresent` models `imgRef.current`
being non-null, `ctxAvailable` models `canvas.getContext` succeeding, and
`croppedFile` is the rasterized result fed through `dataURLtoFile`. -/
def handleApplyCrop {α : Type} (s : AppState α) (imgRefPresent ctxAvailable : Bool)
    (croppedFile : α) : AppState α :=
  match s.completedCrop, imgRefPresent with
  | some _, true =>
    if ctxAvailable then
      addImageToHistory s croppedFile
    else
      { s with error := some "Could not process the crop." }
  | _, _ => { s with error := some "Please select an area to crop." }

/-- `handleUndo`: move the cursor back one step when `canUndo`, clearing the
hotspot; otherwise do nothing. -/
def handleUndo {α : Type} (s : AppState α) : AppState α :=
  if canUndo s then
    { s with historyIndex := s.historyIndex - 1, editHotspot := none, displayHotspot := none }
  else s

/-- `handleRedo`: move the cursor forward one step when `canRedo`, clearing
the hotspot; otherwise do nothing. -/
def handleRedo {α : Type} (s : AppState α) : AppState α :=
  if canRedo s then
    { s with historyIndex := s.historyIndex + 1, editHotspot := none, displayHotspot := none }
  else s

/-- `handleReset`: when history is non-empty, move the cursor to 0 and clear
error and hotspot; otherwise do nothing. -/
def handleReset {α : Type} (s : AppState α) : AppState α :=
  if s.history.length > 0 then
    { s with historyIndex := 0, error := none, editHotspot := none, displayHotspot := none }
  else s

/-- `handleUploadNew`: discard everything: history, cursor, error, prompt,
hotspot. -/
def handleUploadNew {α : Type} (s : AppState α) : AppState α :=
  { s with
    history := []
    historyIndex := -1
    error := none
    prompt := ""
    editHotspot := none
    displayHotspot := none }

/-- `handleDownload` (export flow).  `imageLoadOk` models the `Image`
`onload` path firing rather than `onerror`, and `ctxAvailable` models
`canvas.getContext` succeeding; a successful export mutates no component
state (it only clicks a transient link). -/
def handleDownload {α : Type} (s : AppState α) (imageLoadOk ctxAvailable : Bool) :
    AppState α :=
  match currentImage s with
  | none => s
  | some _ =>
    if imageLoadOk then
      if ctxAvailable then s
      else { s with error := some "Could not prepare image for download." }
    else { s with error := some "Could not prepare image for download." }

/-- The cursor/history invariant of the data model: the cursor is a valid
index whenever the history is non-empty, and is `-1` exactly when the
history is empty. -/
def cursorInv {α : Type} (s : AppState α) : Prop :=
  (s.history.length ≠ 0 → 0 ≤ s.historyIndex ∧ s.historyIndex < (s.history.length : Int)) ∧
  (s.historyIndex = -1 ↔ s.history.length = 0)

/-- A flow outcome that failed safely: history and cursor untouched and the
single error slot filled. -/
def failsSafely {α : Type} (s t : AppState α) : Prop :=
  t.history = s.history ∧ t.historyIndex = s.historyIndex ∧ t.error ≠ none

/-- The history-manager operations of the specification, mapped to their
handlers. -/
inductive Op (α : Type) where
  | reset (x : α)
  | commit (x : α)
  | undo
  | redo
  | restart
  | clear

/-- Dispatch one operation to the corresponding handler. -/
def applyOp {α : Type} (s : AppState α) : Op α → AppState α
  | Op.reset x => handleImageUpload s x
  | Op.commit x => addImageToHistory s x
  | Op.undo => handleUndo s
  | Op.redo => handleRedo s
  | Op.restart => handleReset s
  | Op.clear => handleUploadNew s

/-- Run a sequence of operations from a starting state. -/
def runOps {α : Type} (s : AppState α) (ops : List (Op α)) : AppState α :=
  ops.foldl applyOp s

/-! ### Concrete states used by witnesses and counterexamples -/

/-- A three-revision history parked at its first entry (after two undos). -/
def c1State : AppState Nat :=
  { initialState Nat with history := [0, 1, 2], historyIndex := 0 }

/-- A two-revision history parked at its last entry. -/
def c3State : AppState Nat :=
  { initialState Nat with history := [5, 6], historyIndex := 1 }

/-- A three-revision history parked at its last entry, with error and
hotspot set. -/
def c6State : AppState Nat :=
  { initialState Nat with
    history := [4, 5, 6]
    historyIndex := 2
    error := some "old failure"
    editHotspot := some ⟨1, 1⟩
    displayHotspot := some ⟨1, 1⟩ }

/-- A single-revision state with a hotspot and a completed crop selection. -/
def c7State : AppState Nat :=
  { initialState Nat with
    history := [10]
    historyIndex := 0
    editHotspot := some ⟨3, 4⟩
    displayHotspot := some ⟨5, 6⟩
    completedCrop := some ⟨0, 0, 8, 8⟩ }

/-- A single-revision state ready for a retouch generation: non-empty
prompt and a hotspot. -/
def c7GenState : AppState Nat :=
  { initialState Nat with
    history := [1]
    historyIndex := 0
    prompt := "add a hat"
    editHotspot := some ⟨2, 2⟩
    displayHotspot := some ⟨2, 2⟩ }

/-- A single-revision state with no prompt, hotspot or crop selection. -/
def c8State : AppState Nat :=
  { initialState Nat with history := [1], historyIndex := 0 }

/-! ### Theorems -/

/-- C4: for every prior state, upload (the `reset(revision)` operation)
yields History `[x]`, cursor 0, and clears the error slot and the focus
point. -/
theorem upload_reset_spec {α : Type} (s : AppState α) (x : α) :
    (handleImageUpload s x).history = [x] ∧
    (handleImageUpload s x).historyIndex = 0 ∧
    (handleImageUpload s x).error = none ∧
    (handleImageUpload s x).editHotspot = none ∧
    (handleImageUpload s x).displayHotspot = none :=
  ⟨rfl, rfl, rfl, rfl, rfl⟩

/-- C5: for every prior state, `handleUploadNew` (the `clear()` operation)
empties History, sets the cursor to -1, and clears the prompt text and the
focus point. -/
theorem upload_new_clear_spec {α : Type} (s : AppState α) :
    (handleUploadNew s).history = [] ∧
    (handleUploadNew s).historyIndex = -1 ∧
    (handleUploadNew s).prompt = "" ∧
    (handleUploadNew s).editHotspot = none ∧
    (handleUploadNew s).displayHotspot = none :=
  ⟨rfl, rfl, rfl, rfl, rfl⟩

/-- C10: `addImageToHistory` is total on the empty state: with History empty
and cursor -1 it commits to History `[x]` with cursor 0, agreeing with
`handleImageUpload` (the `reset` operation) on History and cursor. -/
theorem commit_on_empty_spec {α : Type} (s : AppState α) (x : α)
    (h1 : s.history = []) (h2 : s.historyIndex = -1) :
    (addImageToHistory s x).history = [x] ∧
    (addImageToHistory s x).historyIndex = 0 ∧
    (addImageToHistory s x).history = (handleImageUpload s x).history ∧
    (addImageToHistory s x).historyIndex = (handleImageUpload s x).historyIndex := by
  simp [addImageToHistory, handleImageUpload, h1, h2]

/-- Witness for C10: committing 7 to the initial empty state yields
History `[7]`, cursor 0, matching a reset with 7. -/
theorem commit_on_empty_spec_witness :
    (addImageToHistory (initialState Nat) 7).history = [7] ∧
    (addImageToHistory (initialState Nat) 7).historyIndex = 0 ∧
    (addImageToHistory (initialState Nat) 7).history = (handleImageUpload (initialState Nat) 7).history ∧
    (addImageToHistory (initialState Nat) 7).historyIndex = (handleImageUpload (initialState Nat) 7).historyIndex :=
  commit_on_empty_spec (initialState Nat) 7 rfl rfl

/-- C1: with a valid cursor `c`, `addImageToHistory` (the `commit(x)`
operation) truncates History to the first `c+1` revisions, appends `x`,
and sets the cursor to `c+1`. -/
theorem commit_truncate_spec {α : Type} (s : AppState α) (x : α)
    (h0 : 0 ≤ s.historyIndex) (h1 : s.historyIndex < (s.history.length : Int)) :
    (addImageToHistory s x).history =
      s.history.take (s.historyIndex.toNat + 1) ++ [x] ∧
    (addImageToHistory s x).historyIndex = s.historyIndex + 1 := by
  have hk : (s.historyIndex + 1).toNat = s.historyIndex.toNat + 1 := by omega
  constructor
  · simp [addImageToHistory, hk]
  · simp [addImageToHistory, hk, List.length_take]
    omega

/-- Witness for C1: the spec example — History `[A,B,C]` as `[0,1,2]`,
cursor 0, commit of `D` as `3` yields History `[0,3]` and cursor 1. -/
theorem commit_truncate_spec_witness :
    ((addImageToHistory c1State 3).history =
        c1State.history.take (c1State.historyIndex.toNat + 1) ++ [3] ∧
      (addImageToHistory c1State 3).historyIndex = c1State.historyIndex + 1) ∧
    (addImageToHistory c1State 3).history = [0, 3] ∧
    (addImageToHistory c1State 3).historyIndex = 1 :=
  ⟨commit_truncate_spec c1State 3 (by decide) (by decide), by decide, by decide⟩

/-- C3: undo and redo never change History; undo is a no-op when the cursor
is at 0 or below and otherwise decrements the cursor by 1 and clears the
focus point; redo is a no-op when the cursor is at the last index or beyond
and otherwise increments the cursor by 1 and clears the focus point. -/
theorem undo_redo_spec {α : Type} (s : AppState α) :
    (handleUndo s).history = s.history ∧
    (handleRedo s).history = s.history ∧
    (s.historyIndex ≤ 0 → handleUndo s = s) ∧
    (0 < s.historyIndex →
      (handleUndo s).historyIndex = s.historyIndex - 1 ∧
      (handleUndo s).editHotspot = none ∧
      (handleUndo s).displayHotspot = none) ∧
    ((s.history.length : Int) - 1 ≤ s.historyIndex → handleRedo s = s) ∧
    (s.historyIndex < (s.history.length : Int) - 1 →
      (handleRedo s).historyIndex = s.historyIndex + 1 ∧
      (handleRedo s).editHotspot = none ∧
      (handleRedo s).displayHotspot = none) := by
  refine ⟨?_, ?_, ?_, ?_, ?_, ?_⟩
  · unfold handleUndo
    split <;> rfl
  · unfold handleRedo
    split <;> rfl
  · intro h
    have hc : canUndo s = false := by
      simp only [canUndo, decide_eq_false_iff_not]
      omega
    simp [handleUndo, hc]
  · intro h
    have hc : canUndo s = true := by
      simp only [canUndo, decide_eq_true_eq]
      omega
    simp [handleUndo, hc]
  · intro h
    have hc : canRedo s = false := by
      simp only [canRedo, decide_eq_false_iff_not]
      omega
    simp [handleRedo, hc]
  · intro h
    have hc : canRedo s = true := by
      simp only [canRedo, decide_eq_true_eq]
      omega
    simp [handleRedo, hc]

/-- Witness for C3: on History `[5,6]` with cursor 1, undo moves the cursor
to 0, redo is a no-op, and History is untouched. -/
theorem undo_redo_spec_witness :
    (handleUndo c3State).historyIndex = c3State.historyIndex - 1 ∧
    handleRedo c3State = c3State ∧
    (handleUndo c3State).history = c3State.history :=
  ⟨((undo_redo_spec c3State).2.2.2.1 (by decide)).1,
   (undo_redo_spec c3State).2.2.2.2.1 (by decide),
   (undo_redo_spec c3State).1⟩

/-- C6: `handleReset` (the `restart()` operation) on a non-empty History
moves the cursor to 0, leaves History untouched, and clears the error slot
and the focus point; on an empty History it changes nothing. -/
theorem restart_spec {α : Type} (s : AppState α) :
    (0 < s.history.length →
      (handleReset s).history = s.history ∧
      (handleReset s).historyIndex = 0 ∧
      (handleReset s).error = none ∧
      (handleReset s).editHotspot = none ∧
      (handleReset s).displayHotspot = none) ∧
    (s.history.length = 0 → handleReset s = s) := by
  constructor
  · intro h
    unfold handleReset
    rw [if_pos h]
    exact ⟨rfl, rfl, rfl, rfl, rfl⟩
  · intro h
    unfold handleReset
    rw [if_neg (by omega)]

/-- Witness for C6: restarting History `[4,5,6]` from cursor 2 lands on
cursor 0 with the same History and a cleared error slot. -/
theorem restart_spec_witness :
    (handleReset c6State).history = c6State.history ∧
    (handleReset c6State).historyIndex = 0 ∧
    (handleReset c6State).error = none :=
  ⟨((restart_spec c6State).1 (by decide)).1,
   ((restart_spec c6State).1 (by decide)).2.1,
   ((restart_spec c6State).1 (by decide)).2.2.1⟩

/-! ### Invariant preservation lemmas (for C2) -/

/-- The initial state satisfies the cursor/history invariant. -/
theorem cursorInv_initial (α : Type) : cursorInv (initialState α) := by
  simp [cursorInv, initialState]

/-- `addImageToHistory` establishes the invariant from any state. -/
theorem cursorInv_commit {α : Type} (s : AppState α) (x : α) :
    cursorInv (addImageToHistory s x) := by
  unfold cursorInv addImageToHistory
  simp only [List.length_append, List.length_take, List.length_singleton]
  omega

/-- `handleImageUpload` establishes the invariant from any state. -/
theorem cursorInv_reset {α : Type} (s : AppState α) (x : α) :
    cursorInv (handleImageUpload s x) := by
  simp [cursorInv, handleImageUpload]

/-- `handleUploadNew` establishes the invariant from any state. -/
theorem cursorInv_clear {α : Type} (s : AppState α) :
    cursorInv (handleUploadNew s) := by
  simp [cursorInv, handleUploadNew]

/-- `handleUndo` preserves the invariant. -/
theorem cursorInv_undo {α : Type} (s : AppState α) (h : cursorInv s) :
    cursorInv (handleUndo s) := by
  by_cases hc : canUndo s = true
  · have h0 : 0 < s.historyIndex := by
      simpa [canUndo] using hc
    have e : handleUndo s =
        { s with historyIndex := s.historyIndex - 1, editHotspot := none,
                 displayHotspot := none } := by
      unfold handleUndo
      rw [if_pos hc]
    rw [e]
    unfold cursorInv at h ⊢
    dsimp only
    constructor
    · intro hne
      have := h.1 hne
      omega
    · constructor
      · intro hne
        omega
      · intro hne
        have := h.2.mpr hne
        omega
  · have e : handleUndo s = s := by
      unfold handleUndo
      rw [if_neg hc]
    rw [e]
    exact h

/-- `handleRedo` preserves the invariant. -/
theorem cursorInv_redo {α : Type} (s : AppState α) (h : cursorInv s) :
    cursorInv (handleRedo s) := by
  by_cases hc : canRedo s = true
  · have h0 : s.historyIndex < (s.history.length : Int) - 1 := by
      simpa [canRedo] using hc
    have e : handleRedo s =
        { s with historyIndex := s.historyIndex + 1, editHotspot := none,
                 displayHotspot := none } := by
      unfold handleRedo
      rw [if_pos hc]
    rw [e]
    unfold cursorInv at h ⊢
    dsimp only
    constructor
    · intro hne
      have := h.1 hne
      omega
    · constructor
      · intro hne
        omega
      · intro hne
        have := h.2.mpr hne
        omega
  · have e : handleRedo s = s := by
      unfold handleRedo
      rw [if_neg hc]
    rw [e]
    exact h

/-- `handleReset` preserves the invariant. -/
theorem cursorInv_restart {α : Type} (s : AppState α) (h : cursorInv s) :
    cursorInv (handleReset s) := by
  by_cases hl : s.history.length > 0
  · have e : handleReset s =
        { s with historyIndex := 0, error := none, editHotspot := none,
                 displayHotspot := none } := by
      unfold handleReset
      rw [if_pos hl]
    rw [e]
    unfold cursorInv at h ⊢
    dsimp only
    constructor
    · intro hne
      omega
    · omega
  · have e : handleReset s = s := by
      unfold handleReset
      rw [if_neg hl]
    rw [e]
    exact h

/-- Each operation preserves the invariant. -/
theorem cursorInv_applyOp {α : Type} (s : AppState α) (o : Op α) (h : cursorInv s) :
    cursorInv (applyOp s o) := by
  cases o with
  | reset x => exact cursorInv_reset s x
  | commit x => exact cursorInv_commit s x
  | undo => exact cursorInv_undo s h
  | redo => exact cursorInv_redo s h
  | restart => exact cursorInv_restart s h
  | clear => exact cursorInv_clear s

/-- Running any operation sequence preserves the invariant. -/
theorem cursorInv_runOps {α : Type} (ops : List (Op α)) (s : AppState α)
    (h : cursorInv s) : cursorInv (runOps s ops) := by
  induction ops generalizing s with
  | nil => exact h
  | cons o rest ih => exact ih (applyOp s o) (cursorInv_applyOp s o h)

/-- C2: every sequence of reset / commit / undo / redo / restart / clear
operations run from the initial empty state keeps the cursor a valid index
whenever History is non-empty, and at -1 exactly when History is empty. -/
theorem history_cursor_invariant {α : Type} (ops : List (Op α)) :
    cursorInv (runOps (initialState α) ops) :=
  cursorInv_runOps ops (initialState α) (cursorInv_initial α)

/-- Witness for C2: the invariant holds after a concrete mixed sequence of
reset, commits, undos, a redo, a restart and a clear. -/
theorem history_cursor_invariant_witness :
    cursorInv (runOps (initialState Nat)
      [Op.reset 1, Op.commit 2, Op.commit 3, Op.undo, Op.undo,
       Op.commit 4, Op.redo, Op.restart, Op.clear]) :=
  history_cursor_invariant
    [Op.reset 1, Op.commit 2, Op.commit 3, Op.undo, Op.undo,
     Op.commit 4, Op.redo, Op.restart, Op.clear]

/-- Counterexample to C7: on `c7State` the adjustment flow commits a new
revision (History grows to `[10, 11]` and the crop selection is cleared),
yet the focus point survives: `editHotspot` is still `some ⟨3, 4⟩`. -/
theorem commit_keeps_focus_cex :
    (handleApplyAdjustment c7State (Except.ok 11)).history = [10, 11] ∧
    (handleApplyAdjustment c7State (Except.ok 11)).completedCrop = none ∧
    (handleApplyAdjustment c7State (Except.ok 11)).editHotspot = some ⟨3, 4⟩ ∧
    (handleApplyAdjustment c7State (Except.ok 11)).editHotspot ≠ none := by
  refine ⟨?_, ?_, ?_, ?_⟩ <;> decide

/-- C7 (amended): every commit clears the in-progress crop selection state,
but leaves the focus point untouched; only the retouch flow clears the
focus point, and it does so in the caller after the commit. -/
theorem commit_side_effects_spec {α : Type} (s : AppState α) (x : α) :
    (addImageToHistory s x).crop = none ∧
    (addImageToHistory s x).completedCrop = none ∧
    (addImageToHistory s x).editHotspot = s.editHotspot ∧
    (addImageToHistory s x).displayHotspot = s.displayHotspot ∧
    (handleApplyFilter s (Except.ok x)).editHotspot = s.editHotspot ∧
    (handleApplyAdjustment s (Except.ok x)).editHotspot = s.editHotspot ∧
    (handleApplyCrop s true true x).editHotspot = s.editHotspot ∧
    (currentImage s ≠ none → strTrim s.prompt ≠ "" → s.editHotspot ≠ none →
      (handleGenerate s (Except.ok x)).editHotspot = none ∧
      (handleGenerate s (Except.ok x)).displayHotspot = none) := by
  refine ⟨rfl, rfl, rfl, rfl, ?_, ?_, ?_, ?_⟩
  · unfold handleApplyFilter
    cases currentImage s <;> rfl
  · unfold handleApplyAdjustment
    cases currentImage s <;> rfl
  · unfold handleApplyCrop
    cases s.completedCrop <;> rfl
  · intro h1 h2 h3
    unfold handleGenerate
    cases hcur : currentImage s with
    | none => exact absurd hcur h1
    | some img =>
      rw [if_neg h2]
      cases hh : s.editHotspot with
      | none => exact absurd hh h3
      | some p => exact ⟨rfl, rfl⟩

/-- Witness for the amended C7: a retouch commit on `c7GenState` clears the
hotspot, and a bare commit clears the completed crop selection. -/
theorem commit_side_effects_spec_witness :
    (handleGenerate c7GenState (Except.ok 2)).editHotspot = none ∧
    (addImageToHistory c7GenState 2).completedCrop = none :=
  ⟨((commit_side_effects_spec c7GenState 2).2.2.2.2.2.2.2
      (by decide) (by decide) (by decide)).1,
   (commit_side_effects_spec c7GenState 2).2.1⟩

/-- C8: every failing path of every flow — transform-service failure, the
no-image / empty-prompt / no-hotspot guards, a missing or unprocessable
crop, a failed download preparation — leaves History and cursor exactly as
they were and fills the single error slot (the silent no-image guard of the
download handler leaves the whole state unchanged). -/
theorem failure_frame_spec {α : Type} (s : AppState α) (msg : String)
    (r : Except String α) (x : α) (b c : Bool) :
    failsSafely s (handleGenerate s (Except.error msg)) ∧
    failsSafely s (handleApplyFilter s (Except.error msg)) ∧
    failsSafely s (handleApplyAdjustment s (Except.error msg)) ∧
    (currentImage s = none →
      failsSafely s (handleGenerate s r) ∧
      failsSafely s (handleApplyFilter s r) ∧
      failsSafely s (handleApplyAdjustment s r) ∧
      handleDownload s b c = s) ∧
    (strTrim s.prompt = "" → currentImage s ≠ none → failsSafely s (handleGenerate s r)) ∧
    (s.editHotspot = none → currentImage s ≠ none → failsSafely s (handleGenerate s r)) ∧
    (s.completedCrop = none ∨ b = false ∨ c = false →
      failsSafely s (handleApplyCrop s b c x)) ∧
    (currentImage s ≠ none →
      failsSafely s (handleDownload s false b) ∧
      failsSafely s (handleDownload s b false)) := by
  refine ⟨?_, ?_, ?_, ?_, ?_, ?_, ?_, ?_⟩
  · unfold handleGenerate failsSafely
    cases currentImage s with
    | none => exact ⟨rfl, rfl, by simp⟩
    | some img =>
      by_cases hp : strTrim s.prompt = ""
      · rw [if_pos hp]
        exact ⟨rfl, rfl, by simp⟩
      · rw [if_neg hp]
        cases s.editHotspot with
        | none => exact ⟨rfl, rfl, by simp⟩
        | some p => exact ⟨rfl, rfl, by simp [handleApiError]⟩
  · unfold handleApplyFilter failsSafely
    cases currentImage s with
    | none => exact ⟨rfl, rfl, by simp⟩
    | some img => exact ⟨rfl, rfl, by simp [handleApiError]⟩
  · unfold handleApplyAdjustment failsSafely
    cases currentImage s with
    | none => exact ⟨rfl, rfl, by simp⟩
    | some img => exact ⟨rfl, rfl, by simp [handleApiError]⟩
  · intro h
    unfold handleGenerate handleApplyFilter handleApplyAdjustment handleDownload failsSafely
    rw [h]
    exact ⟨⟨rfl, rfl, by simp⟩, ⟨rfl, rfl, by simp⟩, ⟨rfl, rfl, by simp⟩, rfl⟩
  · intro hp hi
    unfold handleGenerate failsSafely
    cases hcur : currentImage s with
    | none => exact absurd hcur hi
    | some img =>
      rw [if_pos hp]
      exact ⟨rfl, rfl, by simp⟩
  · intro hh hi
    unfold handleGenerate failsSafely
    cases hcur : currentImage s with
    | none => exact absurd hcur hi
    | some img =>
      by_cases hp : strTrim s.prompt = ""
      · rw [if_pos hp]
        exact ⟨rfl, rfl, by simp⟩
      · rw [if_neg hp]
        rw [hh]
        exact ⟨rfl, rfl, by simp⟩
  · intro h
    unfold handleApplyCrop failsSafely
    cases hcc : s.completedCrop with
    | none =>
      cases b <;> exact ⟨rfl, rfl, by simp⟩
    | some pc =>
      have hbc : b = false ∨ c = false := by
        rcases h with h | h | h
        · rw [hcc] at h
          exact absurd h (by simp)
        · exact Or.inl h
        · exact Or.inr h
      cases b with
      | false => exact ⟨rfl, rfl, by simp⟩
      | true =>
        have hc0 : c = false := by
          rcases hbc with h | h
          · exact absurd h (by simp)
          · exact h
        subst hc0
        exact ⟨rfl, rfl, by simp⟩
  · intro h
    unfold handleDownload failsSafely
    cases hcur : currentImage s with
    | none => exact absurd hcur h
    | some img =>
      constructor
      · exact ⟨rfl, rfl, by simp⟩
      · cases b with
        | false => exact ⟨rfl, rfl, by simp⟩
        | true => exact ⟨rfl, rfl, by simp⟩

/-- Witness for C8: on a one-revision state, a failed generation, a crop
attempt with no selection, and a failed download-image load all leave
History and cursor untouched and set the error slot. -/
theorem failure_frame_spec_witness :
    failsSafely c8State (handleGenerate c8State (Except.error "boom")) ∧
    failsSafely c8State (handleApplyCrop c8State true true 9) ∧
    failsSafely c8State (handleDownload c8State false true) :=
  ⟨(failure_frame_spec c8State "boom" (Except.error "boom") 9 true true).1,
   (failure_frame_spec c8State "boom" (Except.error "boom") 9 true true).2.2.2.2.2.2.1
     (Or.inl (by decide)),
   ((failure_frame_spec c8State "boom" (Except.error "boom") 9 true true).2.2.2.2.2.2.2
     (by decide)).1⟩

/-- Counterexample to C9: the message `RESOURCE_EXHAUSTED` contains neither
the substring `429` nor the substring `quota`, yet the code classifies it as
rate-limited and surfaces the quota-exceeded user message. -/
theorem rate_limit_markers_cex :
    strIncludes "RESOURCE_EXHAUSTED" "429" = false ∧
    strIncludes "RESOURCE_EXHAUSTED" "quota" = false ∧
    displayErrorMessage "RESOURCE_EXHAUSTED" "generate the image" = quotaMessage := by
  refine ⟨by decide, by decide, by decide⟩

/-- C9 (amended): a failure message containing `429`, `RESOURCE_EXHAUSTED`
or `quota` is classified as rate-limited (the quota user message); one
containing none of the three markers is classified as other and surfaces
the generic failure message; `handleApiError` stores the classified message
in the error slot without touching History. -/
theorem rate_limit_classification {α : Type} (s : AppState α)
    (rawMsg context : String) :
    ((strIncludes rawMsg "429" || strIncludes rawMsg "RESOURCE_EXHAUSTED"
        || strIncludes rawMsg "quota") = true →
      displayErrorMessage rawMsg context = quotaMessage) ∧
    ((strIncludes rawMsg "429" || strIncludes rawMsg "RESOURCE_EXHAUSTED"
        || strIncludes rawMsg "quota") = false →
      displayErrorMessage rawMsg context = "Failed to " ++ context ++ ". " ++ rawMsg) ∧
    (handleApiError s rawMsg context).error =
      some (displayErrorMessage rawMsg context) ∧
    (handleApiError s rawMsg context).history = s.history := by
  constructor
  · intro h
    simp [displayErrorMessage, h]
  constructor
  · intro h
    simp [displayErrorMessage, h]
  exact ⟨rfl, rfl⟩

/-- Witness for the amended C9: a message containing `429` yields the quota
user message, and one with no marker yields the generic failure message. -/
theorem rate_limit_classification_witness :
    displayErrorMessage "HTTP 429 returned" "generate the image" = quotaMessage ∧
    displayErrorMessage "boom" "generate the image" = "Failed to generate the image. boom" :=
  ⟨(rate_limit_classification (initialState Nat) "HTTP 429 returned" "generate the image").1
     (by decide),
   (rate_limit_classification (initialState Nat) "boom" "generate the image").2.1
     (by decide)⟩

end AIPhotoEditor
